import Mathlib

/-!
Verification development for the Awesomium `WebView` interface contract
(`include/awesomium/WebView.h`).  The header is a declaration-only abstract
class: each pure-virtual method carries a documented contract in its doc
comment.  We embed (a) the declared surface itself — the operation list,
parameter names and return types, transcribed from the declarations — and
(b) a behavioural state model of the contracts the doc comments state
(dirty tracking, render, resize, URL filtering, header-rewrite rules).
-/

namespace Awesomium

/-- Mouse button enumeration, `WebView.h` lines 32-36. -/
inductive MouseButton
  | LEFT_MOUSE_BTN
  | MIDDLE_MOUSE_BTN
  | RIGHT_MOUSE_BTN
deriving DecidableEq, Fintype

/-- URL filtering mode enumeration, `WebView.h` lines 41-57:
`UFM_NONE = 0` (no filtering), `UFM_BLACKLIST`, `UFM_WHITELIST`. -/
inductive URLFilteringMode
  | UFM_NONE
  | UFM_BLACKLIST
  | UFM_WHITELIST
deriving DecidableEq, Fintype

/-- The C enumerator values of `URLFilteringMode`: the source gives
`UFM_NONE = 0` explicitly and the two successors implicitly (lines 44-56). -/
def URLFilteringMode.toNat : URLFilteringMode → Nat
  | .UFM_NONE => 0
  | .UFM_BLACKLIST => 1
  | .UFM_WHITELIST => 2

/-- `typedef std::map<std::string, std::string> HeaderDefinition`
(`WebView.h` line 62), modelled as an association list. -/
def HeaderDefinition : Type := List (String × String)

/-- Modelled from the spec: the `Rect` value type returned by
`getDirtyBounds` lives in `PlatformUtils.h`, which is not under `src/`;
the spec describes it only as "the bounds of the dirty area", so we model
an axis-aligned rectangle by position and size. -/
structure Rect where
  x : Int
  y : Int
  width : Int
  height : Int
deriving DecidableEq

/-- The empty dirty area (no pixels changed since the last render). -/
def Rect.empty : Rect := ⟨0, 0, 0, 0⟩

/-- A rectangle with no area. -/
def Rect.isEmpty (r : Rect) : Bool := r.width ≤ 0 || r.height ≤ 0

/-- Bounding box of two dirty areas. -/
def Rect.union (a b : Rect) : Rect :=
  if a.isEmpty then b
  else if b.isEmpty then a
  else
    let x := min a.x b.x
    let y := min a.y b.y
    ⟨x, y, max (a.x + a.width) (b.x + b.width) - x,
      max (a.y + a.height) (b.y + b.height) - y⟩

/-- Modelled from the spec: the opaque pixel buffer handle returned by
`render` (`RenderBuffer.h` is not under `src/`); the spec says ownership
and lifetime are the engine's and the handle "may change between renders",
so we model it as an opaque identity. -/
structure RenderBuffer where
  id : Nat
deriving DecidableEq

/-- Wildcard match for URL filter strings and header re-write rules:
`WebView.h` documents "optional wildcards (*, ?)" (lines 520, 558).
`*` matches any run of characters, `?` matches a single character,
anything else matches itself. -/
def wildcardMatch : List Char → List Char → Bool
  | [], [] => true
  | '*' :: ps, [] => wildcardMatch ps []
  | _ :: _, [] => false
  | [], _ :: _ => false
  | '?' :: ps, _ :: cs => wildcardMatch ps cs
  | '*' :: ps, c :: cs => wildcardMatch ps (c :: cs) || wildcardMatch ('*' :: ps) cs
  | p :: ps, c :: cs => (p == c) && wildcardMatch ps cs
termination_by p s => (p.length, s.length)

/-- A header re-write rule registered by `addHeaderRewriteRule`
(`WebView.h` lines 568-569): a URL wildcard pattern paired with the name
of a header definition registered by `setHeaderDefinition`. -/
structure HeaderRewriteRule where
  rule : List Char
  defName : String
deriving DecidableEq

/-- The observable state of one `WebView`, as far as the contracts in
`WebView.h` expose it: the dirty flag and dirty bounds (`isDirty`,
`getDirtyBounds`), the pending-resize flag (`isResizing`), whether the
out-of-process engine has crashed (`render` may return NULL then), the
engine's current internal buffer, the view dimensions, the zoom percent
(`setZoom`), and the request-policy registries. -/
structure WebViewState where
  dirty : Bool
  dirtyBounds : Rect
  resizePending : Bool
  crashed : Bool
  bufferGen : Nat
  width : Int
  height : Int
  zoomPercent : Int
  filteringMode : URLFilteringMode
  urlFilters : List (List Char)
  headerDefinitions : List (String × HeaderDefinition)
  headerRewriteRules : List HeaderRewriteRule

/-- A fresh `WebView`: nothing rendered yet, no resize pending, engine
alive, default zoom, filtering mode `UFM_NONE` (documented default,
`WebView.h` line 510), no filters or rules. -/
def WebViewState.initial : WebViewState :=
  { dirty := true
    dirtyBounds := Rect.empty
    resizePending := false
    crashed := false
    bufferGen := 0
    width := 0
    height := 0
    zoomPercent := 100
    filteringMode := .UFM_NONE
    urlFilters := []
    headerDefinitions := []
    headerRewriteRules := [] }

/-- `WebView::isDirty` (`WebView.h` lines 355): whether the view needs
re-rendering. -/
def isDirty (s : WebViewState) : Bool := s.dirty

/-- `WebView::getDirtyBounds` (`WebView.h` line 363): the bounds of the
area changed since the last call to `render`. -/
def getDirtyBounds (s : WebViewState) : Rect := s.dirtyBounds

/-- `WebView::isResizing` (`WebView.h` line 487): whether we are waiting
for the WebView process to acknowledge a pending resize. -/
def isResizing (s : WebViewState) : Bool := s.resizePending

/-- `WebView::render` (`WebView.h` lines 365-373): renders into the
engine's internal buffer and clears the dirty state; the returned handle
"may change between renders and may return NULL if the WebView has
crashed". -/
def render (s : WebViewState) : Option RenderBuffer × WebViewState :=
  (if s.crashed then none else some ⟨s.bufferGen⟩,
   { s with dirty := false, dirtyBounds := Rect.empty })

/-- Engine-side paint event: the out-of-process engine repaints an area,
marking the view dirty and growing the dirty bounds (the engine "is
usually continuously rendering even if you never call render",
`WebView.h` lines 376-378). -/
def paintEvent (r : Rect) (s : WebViewState) : WebViewState :=
  { s with dirty := true, dirtyBounds := Rect.union s.dirtyBounds r }

/-- Engine-side buffer swap: the engine may move to a different internal
buffer between renders ("This value may change between renders",
`WebView.h` line 370). -/
def swapBuffer (s : WebViewState) : WebViewState :=
  { s with bufferGen := s.bufferGen + 1 }

/-- Engine-side crash of the WebView process (`WebView.h` line 371). -/
def crashEvent (s : WebViewState) : WebViewState :=
  { s with crashed := true }

/-- A sequence of engine paint events applied in order. -/
def applyPaints (rs : List Rect) (s : WebViewState) : WebViewState :=
  rs.foldl (fun st r => paintEvent r st) s

/-- The total area covered by a sequence of paint events. -/
def boundsOfRects (rs : List Rect) : Rect :=
  rs.foldl Rect.union Rect.empty

/-- `WebView::resize` (`WebView.h` lines 459-479): resize to
`width × height`, optionally waiting for the repaint for at most
`repaintTimeoutMs`.  "Returns true if the resize was successful. This
operation can fail if there is another resize already pending (see
WebView::isResizing) or if the repaint timeout was exceeded."
`repaintMs` is the environment's input: how long the engine actually
takes to repaint. -/
def resize (s : WebViewState) (width height : Int) (waitForRepaint : Bool)
    (repaintTimeoutMs repaintMs : Int) : Bool × WebViewState :=
  if s.resizePending then (false, s)
  else if waitForRepaint = true ∧ repaintTimeoutMs < repaintMs then (false, s)
  else (true, { s with width := width, height := height,
                       resizePending := !waitForRepaint })

/-- Default value of `resize`'s `waitForRepaint` parameter
(`WebView.h` line 478). -/
def resizeDefaultWaitForRepaint : Bool := true

/-- Default value of `resize`'s `repaintTimeoutMs` parameter
(`WebView.h` line 479). -/
def resizeDefaultRepaintTimeoutMs : Int := 300

/-- `resize` called with its two optional arguments omitted, as C++
expands the defaulted call. -/
def resizeWithDefaults (s : WebViewState) (width height : Int)
    (repaintMs : Int) : Bool × WebViewState :=
  resize s width height resizeDefaultWaitForRepaint
    resizeDefaultRepaintTimeoutMs repaintMs

/-- `WebView::setZoom` (`WebView.h` lines 446-452): "Valid range is from
10% to 500%"; a call outside the range is outside the contract, modelled
as `none`. -/
def setZoom (zoomPercent : Int) (s : WebViewState) : Option WebViewState :=
  if 10 ≤ zoomPercent ∧ zoomPercent ≤ 500 then
    some { s with zoomPercent := zoomPercent }
  else none

/-- `WebView::setURLFilteringMode` (`WebView.h` line 515). -/
def setURLFilteringMode (mode : URLFilteringMode) (s : WebViewState) :
    WebViewState :=
  { s with filteringMode := mode }

/-- `WebView::addURLFilter` (`WebView.h` line 531). -/
def addURLFilter (filter : List Char) (s : WebViewState) : WebViewState :=
  { s with urlFilters := s.urlFilters ++ [filter] }

/-- `WebView::clearAllURLFilters` (`WebView.h` line 536). -/
def clearAllURLFilters (s : WebViewState) : WebViewState :=
  { s with urlFilters := [] }

/-- The resource-request gate the filtering mode selects (`WebView.h`
lines 41-57): `UFM_NONE` filters nothing; under `UFM_BLACKLIST` all
requests are allowed except those matching a filter; under
`UFM_WHITELIST` all are denied except those matching a filter. -/
def urlAllowed (mode : URLFilteringMode) (filters : List (List Char))
    (url : List Char) : Bool :=
  match mode with
  | .UFM_NONE => true
  | .UFM_BLACKLIST => !(filters.any fun f => wildcardMatch f url)
  | .UFM_WHITELIST => filters.any fun f => wildcardMatch f url

/-- `WebView::setHeaderDefinition` (`WebView.h` lines 549-551): defines a
named header definition or updates it if it exists. -/
def setHeaderDefinition (name : String) (definition : HeaderDefinition)
    (s : WebViewState) : WebViewState :=
  if s.headerDefinitions.any (fun p => p.fst = name) then
    { s with headerDefinitions :=
        s.headerDefinitions.map fun p =>
          if p.fst = name then (name, definition) else p }
  else
    { s with headerDefinitions := s.headerDefinitions ++ [(name, definition)] }

/-- `WebView::addHeaderRewriteRule` (`WebView.h` lines 568-569):
registers a URL wildcard rule associated with a header definition name. -/
def addHeaderRewriteRule (rule : List Char) (name : String)
    (s : WebViewState) : WebViewState :=
  { s with headerRewriteRules := s.headerRewriteRules ++ [⟨rule, name⟩] }

/-- `WebView::removeHeaderRewriteRule` (`WebView.h` line 577): removes
the rules whose pattern matches the given string exactly. -/
def removeHeaderRewriteRule (rule : List Char) (s : WebViewState) :
    WebViewState :=
  { s with headerRewriteRules :=
      s.headerRewriteRules.filter fun r => r.rule ≠ rule }

/-- `WebView::removeHeaderRewriteRulesByDefinitionName` (`WebView.h`
lines 579-587): removes all rules using the named header definition;
"If you specify an empty string, this will remove ALL header re-write
rules." -/
def removeHeaderRewriteRulesByDefinitionName (name : String)
    (s : WebViewState) : WebViewState :=
  if name = "" then { s with headerRewriteRules := [] }
  else
    { s with headerRewriteRules :=
        s.headerRewriteRules.filter fun r => r.defName ≠ name }

/-- The first rule whose wildcard pattern matches the request URL
("only the first match will be used", `WebView.h` lines 565-566). -/
def firstMatchingRule (rules : List HeaderRewriteRule) (url : List Char) :
    Option HeaderRewriteRule :=
  rules.find? fun r => wildcardMatch r.rule url

/-- The header-definition name applied to a request URL: that of the
first matching re-write rule, if any. -/
def appliedDefinitionName (s : WebViewState) (url : List Char) :
    Option String :=
  (firstMatchingRule s.headerRewriteRules url).map HeaderRewriteRule.defName

/-- The operations declared by the `WebView` abstract class, in source
order (`WebView.h` lines 77-587).  Overloads taking `std::string` vs
`std::wstring` are suffixed `_s` / `_w`. -/
inductive Op
  | destroy
  | setListener
  | getListener
  | setResourceInterceptor
  | getResourceInterceptor
  | loadURL_s
  | loadURL_w
  | loadHTML_s
  | loadHTML_w
  | loadFile
  | goToHistoryOffset
  | stop
  | reload
  | executeJavascript_s
  | executeJavascript_w
  | executeJavascriptWithResult_s
  | executeJavascriptWithResult_w
  | callJavascriptFunction
  | createObject
  | destroyObject
  | setObjectProperty
  | setObjectCallback
  | isLoadingPage
  | isDirty
  | getDirtyBounds
  | render
  | pauseRendering
  | resumeRendering
  | injectMouseMove
  | injectMouseDown
  | injectMouseUp
  | injectMouseWheel
  | injectKeyboardEvent
  | cut
  | copy
  | paste
  | selectAll
  | setZoom
  | resetZoom
  | resize
  | isResizing
  | unfocus
  | focus
  | setTransparent
  | setURLFilteringMode
  | addURLFilter
  | clearAllURLFilters
  | setHeaderDefinition
  | addHeaderRewriteRule
  | removeHeaderRewriteRule
  | removeHeaderRewriteRulesByDefinitionName
deriving DecidableEq, Fintype

/-- The return types occurring among the `WebView` method declarations. -/
inductive RetTy
  | void
  | boolTy
  | listenerPtr
  | interceptorPtr
  | futureJSValue
  | renderBufferPtr
  | rect
deriving DecidableEq

/-- Return type of each declared method, transcribed from `WebView.h`. -/
def retTy : Op → RetTy
  | .getListener => .listenerPtr
  | .getResourceInterceptor => .interceptorPtr
  | .executeJavascriptWithResult_s => .futureJSValue
  | .executeJavascriptWithResult_w => .futureJSValue
  | .isLoadingPage => .boolTy
  | .isDirty => .boolTy
  | .getDirtyBounds => .rect
  | .render => .renderBufferPtr
  | .resize => .boolTy
  | .isResizing => .boolTy
  | _ => .void

/-- Parameter names of each declared method, transcribed from
`WebView.h` in declaration order. -/
def opParams : Op → List String
  | .destroy => []
  | .setListener => ["listener"]
  | .getListener => []
  | .setResourceInterceptor => ["interceptor"]
  | .getResourceInterceptor => []
  | .loadURL_s => ["url", "frameName", "username", "password"]
  | .loadURL_w => ["url", "frameName", "username", "password"]
  | .loadHTML_s => ["html", "frameName"]
  | .loadHTML_w => ["html", "frameName"]
  | .loadFile => ["file", "frameName"]
  | .goToHistoryOffset => ["offset"]
  | .stop => []
  | .reload => []
  | .executeJavascript_s => ["javascript", "frameName"]
  | .executeJavascript_w => ["javascript", "frameName"]
  | .executeJavascriptWithResult_s => ["javascript", "frameName"]
  | .executeJavascriptWithResult_w => ["javascript", "frameName"]
  | .callJavascriptFunction => ["object", "function", "args", "frameName"]
  | .createObject => ["objectName"]
  | .destroyObject => ["objectName"]
  | .setObjectProperty => ["objectName", "propName", "value"]
  | .setObjectCallback => ["objectName", "callbackName"]
  | .isLoadingPage => []
  | .isDirty => []
  | .getDirtyBounds => []
  | .render => []
  | .pauseRendering => []
  | .resumeRendering => []
  | .injectMouseMove => ["x", "y"]
  | .injectMouseDown => ["button"]
  | .injectMouseUp => ["button"]
  | .injectMouseWheel => ["scrollAmount"]
  | .injectKeyboardEvent => ["keyboardEvent"]
  | .cut => []
  | .copy => []
  | .paste => []
  | .selectAll => []
  | .setZoom => ["zoomPercent"]
  | .resetZoom => []
  | .resize => ["width", "height", "waitForRepaint", "repaintTimeoutMs"]
  | .isResizing => []
  | .unfocus => []
  | .focus => []
  | .setTransparent => ["isTransparent"]
  | .setURLFilteringMode => ["mode"]
  | .addURLFilter => ["filter"]
  | .clearAllURLFilters => []
  | .setHeaderDefinition => ["name", "definition"]
  | .addHeaderRewriteRule => ["rule", "name"]
  | .removeHeaderRewriteRule => ["rule"]
  | .removeHeaderRewriteRulesByDefinitionName => ["name"]

/-- Whether a method's documented contract lets its return value signal a
failure.  From `WebView.h`: `resize` "Returns true if the resize was
successful. This operation can fail ..." (lines 472-474), and `render`
"may return NULL if the WebView has crashed" (line 371).  No other doc
comment in the header attaches a failure meaning to a return value. -/
def signalsFailureViaReturn : Op → Bool
  | .resize => true
  | .render => true
  | _ => false

/-- Whether a method's declaration offers a synchronous wait bounded by a
timeout: it takes both a `waitForRepaint` flag and a `repaintTimeoutMs`
parameter. -/
def offersSyncWait (op : Op) : Bool :=
  (opParams op).contains "waitForRepaint"
    && (opParams op).contains "repaintTimeoutMs"

/-- The navigation operations of the interface (`WebView.h` lines
112-215). -/
inductive NavOp
  | loadURL
  | loadHTML
  | loadFile
  | goToHistoryOffset
  | stop
  | reload
deriving DecidableEq, Fintype

/-- The `Op` declarations realising each navigation operation. -/
def navOverloads : NavOp → List Op
  | .loadURL => [.loadURL_s, .loadURL_w]
  | .loadHTML => [.loadHTML_s, .loadHTML_w]
  | .loadFile => [.loadFile]
  | .goToHistoryOffset => [.goToHistoryOffset]
  | .stop => [.stop]
  | .reload => [.reload]

/-- Modelled from the spec: the asynchronous completion behaviour of the
out-of-process engine is not in `src/`.  The spec says navigation calls
return before the operation completes and completion "is signaled
out-of-band via the registered listener"; we model the engine as a queue
of issued-but-uncompleted navigations together with the completion events
it has delivered to the listener. -/
structure NavSession where
  pending : List NavOp
  delivered : List NavOp
deriving DecidableEq

/-- Issuing a navigation call: the call returns `()` at once (no
completion information in the return value) and the navigation joins the
engine's pending queue. -/
def issueNav (op : NavOp) (s : NavSession) : Unit × NavSession :=
  ((), { s with pending := s.pending ++ [op] })

/-- One engine step: the oldest pending navigation completes and its
completion event is delivered to the registered listener. -/
def engineDeliverOne (s : NavSession) : NavSession :=
  match s.pending with
  | [] => s
  | op :: rest => { pending := rest, delivered := s.delivered ++ [op] }

/-- `n` engine steps. -/
def engineDeliver : Nat → NavSession → NavSession
  | 0, s => s
  | n + 1, s => engineDeliver n (engineDeliverOne s)

/-! Helper lemmas shared by the claim theorems. -/

/-- Applying paint events folds `Rect.union` over the starting dirty
bounds. -/
theorem getDirtyBounds_applyPaints (l : List Rect) (st : WebViewState) :
    getDirtyBounds (applyPaints l st) = l.foldl Rect.union st.dirtyBounds := by
  induction l generalizing st with
  | nil => rfl
  | cons r rest ih =>
      simpa [applyPaints, paintEvent, getDirtyBounds, List.foldl]
        using ih (paintEvent r st)

/-- A prefix on which the predicate is everywhere false does not affect
`find?`. -/
theorem find?_append_of_none {α : Type} (p : α → Bool) :
    ∀ (pre rest : List α), (∀ r ∈ pre, p r = false) →
      (pre ++ rest).find? p = rest.find? p := by
  intro pre
  induction pre with
  | nil => intro rest _; rfl
  | cons a l ih =>
      intro rest h
      have ha : p a = false := h a (List.mem_cons_self a l)
      rw [List.cons_append, List.find?_cons_of_neg _ (by simp [ha])]
      exact ih rest fun r hr => h r (List.mem_cons_of_mem a hr)

/-- Running the engine for as many steps as there are pending
navigations delivers every pending completion to the listener, in
order. -/
theorem engineDeliver_drains (p : List NavOp) (d : List NavOp) :
    engineDeliver p.length ⟨p, d⟩ = ⟨[], d ++ p⟩ := by
  induction p generalizing d with
  | nil => simp [engineDeliver]
  | cons op rest ih =>
      show engineDeliver (rest.length + 1) ⟨op :: rest, d⟩ = _
      have step : engineDeliver (rest.length + 1) ⟨op :: rest, d⟩
          = engineDeliver rest.length ⟨rest, d ++ [op]⟩ := rfl
      rw [step, ih (d ++ [op])]
      simp

/-! The claim theorems. -/

/-- Claim C3: render clears the dirty state — immediately after `render`
returns, `isDirty` is `false`, and `getDirtyBounds` afterwards reports
exactly the area covered by the paint events that occurred since that
call to `render`, independent of the pre-render dirty state. -/
theorem render_clears_dirty_state :
    ∀ (s : WebViewState) (rs : List Rect),
      isDirty (render s).snd = false
      ∧ getDirtyBounds (applyPaints rs (render s).snd) = boundsOfRects rs := by
  intro s rs
  refine ⟨rfl, ?_⟩
  rw [getDirtyBounds_applyPaints]
  rfl

/-- Claim C2: `render` returns the engine's internal buffer handle,
which can differ between successive renders (witnessed from the initial
state with an engine buffer swap in between), and it returns NULL if and
only if the WebView process has crashed. -/
theorem render_null_iff_crashed :
    (∀ s : WebViewState, (render s).fst = none ↔ s.crashed = true)
    ∧ ((render WebViewState.initial).fst
         ≠ (render (swapBuffer (render WebViewState.initial).snd)).fst
       ∧ (render WebViewState.initial).fst ≠ none
       ∧ (render (swapBuffer (render WebViewState.initial).snd)).fst ≠ none) := by
  constructor
  · intro s
    unfold render
    cases h : s.crashed <;> simp [h]
  · refine ⟨by decide, by decide, by decide⟩

/-- Claim C1 (counterexample): it is not the case that resize is the
only operation signalling failure through its return value — `render`
also does, by returning a NULL buffer handle when the WebView has
crashed (`WebView.h` line 371). -/
theorem render_also_signals_failure :
    signalsFailureViaReturn Op.render = true ∧ Op.render ≠ Op.resize := by
  decide

/-- Claim C1 (amended): `resize` returns a boolean result which is
`false` exactly when another resize is already pending (as reported by
`isResizing`) or when the repaint wait exceeds the timeout; and the only
operations of the interface whose return value signals failure are
`resize` and `render` (the latter returning a null buffer handle after a
crash). -/
theorem resize_failure_signal_spec :
    retTy Op.resize = RetTy.boolTy
    ∧ (∀ (s : WebViewState) (w h : Int) (wait : Bool) (tmo rep : Int),
        (resize s w h wait tmo rep).fst = false
          ↔ (isResizing s = true ∨ (wait = true ∧ tmo < rep)))
    ∧ (∀ op : Op, signalsFailureViaReturn op = true
          ↔ (op = Op.resize ∨ op = Op.render)) := by
  refine ⟨rfl, ?_, by decide⟩
  intro s w h wait tmo rep
  unfold resize isResizing
  split_ifs with h1 h2 <;> simp_all

/-- Claim C5: resize is the only operation with a blocking contract —
its declaration alone carries both a `waitForRepaint` flag and a
`repaintTimeoutMs` bound; no other declared operation offers a
synchronous wait or timeout. -/
theorem resize_only_blocking_contract :
    ∀ op : Op, offersSyncWait op = true ↔ op = Op.resize := by
  decide

/-- Claim C6: the URL filtering mode is exactly one of the three
enumerators `UFM_NONE = 0`, `UFM_BLACKLIST = 1`, `UFM_WHITELIST = 2`;
under no filtering everything is allowed, under blacklist a request is
denied exactly when it matches a registered filter, and under whitelist
a request is allowed exactly when it matches a registered filter. -/
theorem urlFilteringMode_gate_spec :
    (URLFilteringMode.toNat .UFM_NONE = 0
      ∧ URLFilteringMode.toNat .UFM_BLACKLIST = 1
      ∧ URLFilteringMode.toNat .UFM_WHITELIST = 2)
    ∧ (∀ m : URLFilteringMode,
        m = .UFM_NONE ∨ m = .UFM_BLACKLIST ∨ m = .UFM_WHITELIST)
    ∧ ∀ (filters : List (List Char)) (url : List Char),
        urlAllowed .UFM_NONE filters url = true
        ∧ (urlAllowed .UFM_BLACKLIST filters url = false
             ↔ (filters.any fun f => wildcardMatch f url) = true)
        ∧ (urlAllowed .UFM_WHITELIST filters url = true
             ↔ (filters.any fun f => wildcardMatch f url) = true) := by
  refine ⟨⟨rfl, rfl, rfl⟩, fun m => by cases m <;> simp, fun filters url => ?_⟩
  refine ⟨rfl, ?_, Iff.rfl⟩
  unfold urlAllowed
  cases h : filters.any fun f => wildcardMatch f url <;> simp [h]

/-- Claim C4: every navigation operation (loadURL, loadHTML, loadFile,
goToHistoryOffset, stop, reload) is declared returning void, so the call
carries no completion information; issuing one returns at once with the
navigation still pending in the engine, and its completion event is
delivered out-of-band to the registered listener by later engine
steps. -/
theorem navigation_async_contract :
    (∀ n : NavOp, ((navOverloads n).all fun o => retTy o == RetTy.void) = true)
    ∧ ∀ (op : NavOp) (s : NavSession),
        (issueNav op s).fst = ()
        ∧ op ∈ ((issueNav op s).snd).pending
        ∧ (engineDeliver ((issueNav op s).snd).pending.length
              (issueNav op s).snd).delivered
            = s.delivered ++ (s.pending ++ [op]) := by
  refine ⟨by decide, fun op s => ⟨rfl, ?_, ?_⟩⟩
  · simp [issueNav]
  · show (engineDeliver (s.pending ++ [op]).length
        ⟨s.pending ++ [op], s.delivered⟩).delivered = _
    rw [engineDeliver_drains]

/-- Claim C7: `removeHeaderRewriteRulesByDefinitionName` keeps a rule
exactly when the name is non-empty and the rule does not use the named
header definition — so a non-empty name removes exactly the rules using
that definition, and the empty string removes all rules. -/
theorem removeHeaderRewriteRules_by_name_spec :
    ∀ (name : String) (s : WebViewState) (r : HeaderRewriteRule),
      r ∈ (removeHeaderRewriteRulesByDefinitionName name s).headerRewriteRules
        ↔ (r ∈ s.headerRewriteRules ∧ ¬name = "" ∧ ¬r.defName = name) := by
  intro name s r
  unfold removeHeaderRewriteRulesByDefinitionName
  split_ifs with h
  · simp [h]
  · simp [h, List.mem_filter, and_assoc]

/-- Claim C8: the declared defaults of `resize`'s optional arguments are
`waitForRepaint = true` and `repaintTimeoutMs = 300`; a defaulted call
behaves as `resize w h true 300` and, in particular, succeeds exactly
when no resize is pending and the engine repaints within 300 ms. -/
theorem resize_defaults_spec :
    resizeDefaultWaitForRepaint = true
    ∧ resizeDefaultRepaintTimeoutMs = 300
    ∧ ∀ (s : WebViewState) (w h rep : Int),
        resizeWithDefaults s w h rep = resize s w h true 300 rep
        ∧ ((resizeWithDefaults s w h rep).fst = true
             ↔ (isResizing s = false ∧ rep ≤ 300)) := by
  refine ⟨rfl, rfl, fun s w h rep => ⟨rfl, ?_⟩⟩
  unfold resizeWithDefaults resize isResizing resizeDefaultWaitForRepaint
    resizeDefaultRepaintTimeoutMs
  split_ifs with h1 h2 <;> simp_all

/-- Claim C9: `setZoom`'s contract accepts exactly the zoom percentages
from 10 to 500 inclusive; within the range it sets the zoom to the given
value, outside the range the call is outside the contract. -/
theorem setZoom_valid_range_spec :
    ∀ (z : Int) (s : WebViewState),
      ((setZoom z s).isSome = true ↔ (10 ≤ z ∧ z ≤ 500))
      ∧ (setZoom z s).map WebViewState.zoomPercent
          = if 10 ≤ z ∧ z ≤ 500 then some z else none := by
  intro z s
  unfold setZoom
  split_ifs with h <;> simp [h]

/-- Claim C10: when a request URL is matched by several header re-write
rules, only the first matching rule's header definition is applied: if
`r1` precedes `r2` in the registered rule list, no rule before `r1`
matches, and both `r1` and `r2` match the URL, then the applied header
definition is `r1`'s. -/
theorem headerRewrite_first_match_wins :
    ∀ (pre mid post : List HeaderRewriteRule) (r1 r2 : HeaderRewriteRule)
      (url : List Char) (s : WebViewState),
      s.headerRewriteRules = pre ++ r1 :: (mid ++ r2 :: post) →
      (∀ r ∈ pre, wildcardMatch r.rule url = false) →
      wildcardMatch r1.rule url = true →
      wildcardMatch r2.rule url = true →
      appliedDefinitionName s url = some r1.defName := by
  intro pre mid post r1 r2 url s hs hpre h1 h2
  unfold appliedDefinitionName firstMatchingRule
  rw [hs, find?_append_of_none _ pre _ hpre,
    List.find?_cons_of_pos _ (by simp [h1])]
  rfl

/-- Witness for C10: two rules both matching the URL `"a"` are
registered in order via `addHeaderRewriteRule`; the applied definition
is the first one's. -/
theorem headerRewrite_first_match_wins_witness :
    appliedDefinitionName
      (addHeaderRewriteRule ('*' :: []) "beta"
        (addHeaderRewriteRule ('*' :: []) "alpha" WebViewState.initial))
      ('a' :: []) = some "alpha" :=
  headerRewrite_first_match_wins [] [] []
    ⟨'*' :: [], "alpha"⟩ ⟨'*' :: [], "beta"⟩ ('a' :: [])
    (addHeaderRewriteRule ('*' :: []) "beta"
      (addHeaderRewriteRule ('*' :: []) "alpha" WebViewState.initial))
    rfl (by simp) (by simp [wildcardMatch]) (by simp [wildcardMatch])

end Awesomium
